import Mathlib

/-!
# Verification of the osm4vr building/tile engine

Shallow embedding of the `osm-geojson` / `osm-tiles` AFrame components
(tile math, height inference, feature-to-geometry conversion, building/part
reconciliation, incremental tile loader) together with proofs and refutations
of the specified properties.

JavaScript numeric tag parsing is modelled over `ℚ`; a `NaN` result is
modelled explicitly (`JSNumber.nan`), and the JS `null` sentinel used by
`feature2height` is modelled by an outer `Option`.  The trigonometric tile
projection and the plane-coordinate conversion are modelled over `ℝ`.
-/

namespace Osm4vr

/-! ## JavaScript numbers and numeric string parsing -/

/-- A finite JavaScript number (`ℚ`) or `NaN`.  The source never produces
infinities in the modelled code paths. -/
inductive JSNumber where
  | nan : JSNumber
  | num (q : ℚ) : JSNumber
deriving DecidableEq

/-- JS multiplication: `NaN` is absorbing. -/
def JSNumber.mul (a b : JSNumber) : JSNumber :=
  match a, b with
  | .num x, .num y => .num (x * y)
  | _, _ => .nan

/-- A failed parse (`none`) is JavaScript's `NaN`. -/
def JSNumber.ofOpt : Option ℚ → JSNumber
  | none => .nan
  | some q => .num q

/-- Decimal digit characters to a natural number. -/
def digitsToNat (ds : List Char) : ℕ :=
  ds.foldl (fun acc c => 10 * acc + (c.toNat - 48)) 0

/-- Parse the leading decimal literal `digits [. digits]` of a character
list, returning all mantissa digits, the number of fraction digits, and the
unconsumed characters. -/
def parseMantissa (cs : List Char) : Option (ℕ × ℕ × List Char) :=
  let intPart := cs.takeWhile (·.isDigit)
  let rest := cs.dropWhile (·.isDigit)
  match rest with
  | c :: rest1 =>
    if c.toNat == 46 then
      let fracPart := rest1.takeWhile (·.isDigit)
      let rest2 := rest1.dropWhile (·.isDigit)
      if intPart.isEmpty && fracPart.isEmpty then none
      else some (digitsToNat (intPart ++ fracPart), fracPart.length, rest2)
    else if intPart.isEmpty then none else some (digitsToNat intPart, 0, rest)
  | [] => if intPart.isEmpty then none else some (digitsToNat intPart, 0, [])

/-- Exponent digits with an optional sign applied; `0` when no digits follow
(JS ignores a dangling exponent marker). -/
def expDigits (cs : List Char) (neg : Bool) : ℤ :=
  let ds := cs.takeWhile (·.isDigit)
  if ds.isEmpty then 0
  else if neg then -(digitsToNat ds : ℤ) else (digitsToNat ds : ℤ)

/-- Parse an optional trailing `(e|E)(+|-)?digits` exponent part. -/
def parseExponent : List Char → ℤ
  | c :: rest =>
    if c.toNat == 101 || c.toNat == 69 then
      match rest with
      | s :: rest1 =>
        if s.toNat == 43 then expDigits rest1 false
        else if s.toNat == 45 then expDigits rest1 true
        else expDigits rest false
      | [] => 0
    else 0
  | [] => 0

/-- Integer representation `(mantissa, base-10 exponent)` of the float parsed
from the string by JS `parseFloat`: leading whitespace, optional sign,
decimal literal with optional exponent; trailing junk ignored; `none` models
`NaN`.  (The literal strings `Infinity`/`-Infinity` are not representable in
`ℚ` and never occur as OSM tag values.) -/
def parseFloatRep (s : String) : Option (ℤ × ℤ) :=
  let cs := s.data.dropWhile (·.isWhitespace)
  let signNeg := match cs with | c :: _ => c.toNat == 45 | [] => false
  let cs1 := match cs with
    | c :: rest => if c.toNat == 45 || c.toNat == 43 then rest else cs
    | [] => cs
  match parseMantissa cs1 with
  | none => none
  | some (m, fracLen, rest) =>
    some ((if signNeg then -(m : ℤ) else (m : ℤ)), parseExponent rest - (fracLen : ℤ))

/-- JS `parseFloat` as a rational value. -/
def parseFloat (s : String) : Option ℚ :=
  (parseFloatRep s).map (fun p => (p.1 : ℚ) * (10 : ℚ) ^ p.2)

/-- Value of a hexadecimal digit character, if it is one. -/
def hexVal (c : Char) : Option ℕ :=
  if c.isDigit then some (c.toNat - 48)
  else if 97 ≤ c.toNat && c.toNat ≤ 102 then some (c.toNat - 87)
  else if 65 ≤ c.toNat && c.toNat ≤ 70 then some (c.toNat - 55)
  else none

/-- Hexadecimal digit characters to a natural number. -/
def hexDigitsToNat (ds : List Char) : ℕ :=
  ds.foldl (fun acc c => 16 * acc + ((hexVal c).getD 0)) 0

/-- Decimal branch of JS `parseInt`. -/
def parseIntDec (cs : List Char) (signNeg : Bool) : Option ℤ :=
  let ds := cs.takeWhile (·.isDigit)
  if ds.isEmpty then none
  else some (if signNeg then -(digitsToNat ds : ℤ) else (digitsToNat ds : ℤ))

/-- Hexadecimal branch of JS `parseInt` (after `0x`/`0X`). -/
def parseIntHex (cs : List Char) (signNeg : Bool) : Option ℤ :=
  let ds := cs.takeWhile (fun c => (hexVal c).isSome)
  if ds.isEmpty then none
  else some (if signNeg then -(hexDigitsToNat ds : ℤ) else (hexDigitsToNat ds : ℤ))

/-- JS `parseInt` with unspecified radix: leading whitespace, optional sign,
`0x` prefix selects base 16, otherwise base 10; `none` models `NaN`. -/
def parseInt (s : String) : Option ℤ :=
  let cs := s.data.dropWhile (·.isWhitespace)
  let signNeg := match cs with | c :: _ => c.toNat == 45 | [] => false
  let cs1 := match cs with
    | c :: rest => if c.toNat == 45 || c.toNat == 43 then rest else cs
    | [] => cs
  match cs1 with
  | z :: x :: rest =>
    if z.toNat == 48 && (x.toNat == 120 || x.toNat == 88) then parseIntHex rest signNeg
    else parseIntDec cs1 signNeg
  | _ => parseIntDec cs1 signNeg

/-- JS `String.indexOf` restricted to a single character: the first index of
`c` in `s`, or `-1`. -/
def jsIndexOf (s : String) (c : Char) : ℤ :=
  match s.data.findIdx? (· = c) with
  | some i => (i : ℤ)
  | none => -1

/-- The apostrophe character, OSM's foot mark in height values. -/
def footMark : Char := Char.ofNat 39

/-! ## Constants of the `osm-geojson` component (`init`) -/

def EQUATOR_M : ℚ := 40075017

def POLES_M : ℚ := 40007863

def FEET_TO_METER : ℚ := 0.3048

def LEVEL_HEIGHT_M : ℚ := 3

def DEFAULT_BUILDING_HEIGHT_M : ℚ := 6

/-- `BUILDING_TO_METER`: default heights for building/man_made type values. -/
def BUILDING_TO_METER : List (String × ℚ) :=
  [("church", 20), ("water_tower", 20), ("bungalow", LEVEL_HEIGHT_M),
   ("cabin", LEVEL_HEIGHT_M), ("ger", LEVEL_HEIGHT_M), ("houseboat", LEVEL_HEIGHT_M),
   ("static_caravan", LEVEL_HEIGHT_M), ("kiosk", LEVEL_HEIGHT_M),
   ("chapel", LEVEL_HEIGHT_M), ("shrine", LEVEL_HEIGHT_M), ("bakehouse", LEVEL_HEIGHT_M),
   ("toilets", LEVEL_HEIGHT_M), ("stable", LEVEL_HEIGHT_M), ("boathouse", LEVEL_HEIGHT_M),
   ("hut", LEVEL_HEIGHT_M), ("shed", LEVEL_HEIGHT_M), ("carport", LEVEL_HEIGHT_M),
   ("garage", LEVEL_HEIGHT_M), ("garages", LEVEL_HEIGHT_M), ("beach_hut", LEVEL_HEIGHT_M),
   ("container", LEVEL_HEIGHT_M), ("guardhouse", LEVEL_HEIGHT_M)]

/-! ## Features -/

/-- A GeoJSON feature as consumed by the component: tag map, geometry type
string and paths of `(lon, lat)` coordinate pairs (first path is the outer
ring, the rest are holes). -/
structure Feature where
  id : String
  properties : List (String × String)
  geomType : String
  coordinates : List (List (ℚ × ℚ))
deriving DecidableEq

/-- `key in feature.properties` lookup (objects have unique keys; the model
takes the first binding). -/
def getTag (f : Feature) (k : String) : Option String :=
  f.properties.lookup k

/-- Whether the tag key is present at all. -/
def hasTag (f : Feature) (k : String) : Bool :=
  (getTag f k).isSome

/-! ## Height inference (`height2meters`, `feature2height`, …) -/

/-- `height2meters`: a foot mark strictly after position 0 selects the
feet conversion, otherwise the value is taken as meters; either way
`parseFloat` does the parsing and a failure yields `NaN`. -/
def height2meters (height : String) : JSNumber :=
  if jsIndexOf height footMark > 0 then
    JSNumber.mul (JSNumber.ofOpt (parseFloat height)) (JSNumber.num FEET_TO_METER)
  else JSNumber.ofOpt (parseFloat height)

/-- `parseInt(levels) * LEVEL_HEIGHT_M` with `NaN` propagation. -/
def jsLevels (n : Option ℤ) : JSNumber :=
  match n with
  | none => .nan
  | some k => .num ((k : ℚ) * LEVEL_HEIGHT_M)

/-- `feature2height`: ordered first-match chain over the tags
`height`, `building:levels`, `roof:height`, then the `BUILDING_TO_METER`
table keyed by the `building` or `man_made` value; `none` models the JS
`null` ("unknown") result. -/
def feature2height (f : Feature) : Option JSNumber :=
  match getTag f "height" with
  | some h => some (height2meters h)
  | none =>
    match getTag f "building:levels" with
    | some lv => some (jsLevels (parseInt lv))
    | none =>
      match getTag f "roof:height" with
      | some rh => some (height2meters rh)
      | none =>
        match (getTag f "building").bind (fun v => BUILDING_TO_METER.lookup v) with
        | some m => some (.num m)
        | none =>
          match (getTag f "man_made").bind (fun v => BUILDING_TO_METER.lookup v) with
          | some m => some (.num m)
          | none => none

/-- `feature2minHeight`: `min_height` tag, else `building:min_level × 3`,
else `0`. -/
def feature2minHeight (f : Feature) : JSNumber :=
  match getTag f "min_height" with
  | some h => height2meters h
  | none =>
    match getTag f "building:min_level" with
    | some lv => jsLevels (parseInt lv)
    | none => .num 0

/-- `hasShape`: `building:shape` or `roof:shape` equals the given value. -/
def hasShape (f : Feature) (shape : String) : Bool :=
  (getTag f "building:shape" == some shape) || (getTag f "roof:shape" == some shape)

/-- `isRoof`: the `building:part` tag equals `"roof"`. -/
def isRoof (part : Feature) : Bool :=
  getTag part "building:part" == some "roof"

/-! ## Evaluation helpers -/

theorem parseFloat_of_rep (s : String) (m e : ℤ) (h : parseFloatRep s = some (m, e)) :
    parseFloat s = some ((m : ℚ) * (10 : ℚ) ^ e) := by
  simp [parseFloat, h]

theorem parseFloat_of_rep_none (s : String) (h : parseFloatRep s = none) :
    parseFloat s = none := by
  simp [parseFloat, h]

theorem height2meters_meters (s : String) (m e : ℤ)
    (hidx : ¬ jsIndexOf s footMark > 0) (h : parseFloatRep s = some (m, e)) :
    height2meters s = JSNumber.num ((m : ℚ) * (10 : ℚ) ^ e) := by
  unfold height2meters
  rw [if_neg hidx, parseFloat_of_rep s m e h]
  rfl

theorem height2meters_feet (s : String) (m e : ℤ)
    (hidx : jsIndexOf s footMark > 0) (h : parseFloatRep s = some (m, e)) :
    height2meters s = JSNumber.num ((m : ℚ) * (10 : ℚ) ^ e * FEET_TO_METER) := by
  unfold height2meters
  rw [if_pos hidx, parseFloat_of_rep s m e h]
  rfl

theorem height2meters_nan (s : String) (h : parseFloat s = none) :
    height2meters s = JSNumber.nan := by
  unfold height2meters
  rw [h]
  split <;> rfl

/-! ## Claims C3, C4, C5: the height fallback chain -/

/-- Feature with an unparseable `height` and numeric `building:levels`. -/
def c3feature : Feature :=
  ⟨"way/3001", [("height", "tall"), ("building:levels", "5")], "Polygon", []⟩

/-- Feature lacking `height` but carrying both `roof:height` and
`building:levels`. -/
def c4feature : Feature :=
  ⟨"way/4001", [("roof:height", "2"), ("building:levels", "5")], "Polygon", []⟩

/-- Feature carrying only `roof:height`. -/
def c4featureRoofOnly : Feature :=
  ⟨"way/4002", [("roof:height", "2")], "Polygon", []⟩

/-- The OSM height string `33'` (33 feet). -/
def heightFeet33 : String := "33".push footMark

/-- C3 counterexample: with `height="tall"` and `building:levels="5"`,
`feature2height` returns `NaN` rather than treating the unparseable tag as
absent and continuing to the `building:levels` fallback (which would give
`15`). -/
theorem c3_unparseable_height_counterexample :
    feature2height c3feature = some JSNumber.nan
      ∧ some JSNumber.nan ≠ some (JSNumber.num 15) := by
  constructor
  · have h1 : feature2height c3feature = some (height2meters "tall") := rfl
    rw [h1, height2meters_nan "tall" (parseFloat_of_rep_none "tall" (by decide))]
  · simp

/-- C3 (amended): when the `height` tag is present but does not parse as a
number, `feature2height` returns `NaN` directly (propagating the parse
failure); the chain does not fall through to the later fallbacks. -/
theorem c3_unparseable_height_amended (f : Feature) (v : String)
    (hv : getTag f "height" = some v) (hp : parseFloat v = none) :
    feature2height f = some JSNumber.nan := by
  unfold feature2height
  rw [hv]
  show some (height2meters v) = some JSNumber.nan
  rw [height2meters_nan v hp]

theorem c3_unparseable_height_amended_witness :
    feature2height c3feature = some JSNumber.nan :=
  c3_unparseable_height_amended c3feature "tall" (by decide)
    (parseFloat_of_rep_none "tall" (by decide))

/-- C4 counterexample: a feature lacking `height` but carrying both
`roof:height="2"` and `building:levels="5"` resolves to `15` (levels × 3),
not to the parsed `roof:height` value `2`: the code checks `building:levels`
before `roof:height`. -/
theorem c4_roof_height_counterexample :
    feature2height c4feature = some (JSNumber.num 15)
      ∧ JSNumber.num 15 ≠ JSNumber.num 2 := by
  constructor
  · have h1 : feature2height c4feature = some (jsLevels (parseInt "5")) := rfl
    have h2 : parseInt "5" = some 5 := by decide
    rw [h1, h2]
    simp only [jsLevels, JSNumber.num.injEq, Option.some.injEq]
    norm_num [LEVEL_HEIGHT_M]
  · simp only [ne_eq, JSNumber.num.injEq]
    norm_num

/-- C4 (amended): in the fallback chain `building:levels` takes precedence
over `roof:height`; `roof:height` is consulted only when both the `height`
and the `building:levels` tags are absent. -/
theorem c4_levels_before_roof_height_amended :
    (∀ f lv, getTag f "height" = none → getTag f "building:levels" = some lv →
      feature2height f = some (jsLevels (parseInt lv)))
    ∧ (∀ f rh, getTag f "height" = none → getTag f "building:levels" = none →
      getTag f "roof:height" = some rh →
      feature2height f = some (height2meters rh)) := by
  constructor
  · intro f lv h1 h2
    unfold feature2height
    rw [h1, h2]
  · intro f rh h1 h2 h3
    unfold feature2height
    rw [h1, h2, h3]

theorem c4_levels_before_roof_height_witness :
    feature2height c4feature = some (jsLevels (parseInt "5"))
    ∧ feature2height c4featureRoofOnly = some (height2meters "2") :=
  ⟨c4_levels_before_roof_height_amended.1 c4feature "5" (by decide) (by decide),
   c4_levels_before_roof_height_amended.2 c4featureRoofOnly "2"
     (by decide) (by decide) (by decide)⟩

/-- C5: concrete height inference: `height="10"` beats `building:levels="5"`
and gives 10 m; `building:levels="3"` alone gives 9 m; `height="33'"` gives
`33 × 0.3048` m, which equals 10.0584 and is within 0.01 of 10.06. -/
theorem c5_height_fallback_examples :
    feature2height ⟨"way/5001", [("height", "10"), ("building:levels", "5")], "Polygon", []⟩
        = some (JSNumber.num 10)
    ∧ feature2height ⟨"way/5002", [("building:levels", "3")], "Polygon", []⟩
        = some (JSNumber.num 9)
    ∧ feature2height ⟨"way/5003", [("height", heightFeet33)], "Polygon", []⟩
        = some (JSNumber.num (33 * FEET_TO_METER))
    ∧ 33 * FEET_TO_METER = 10.0584
    ∧ |33 * FEET_TO_METER - 10.06| ≤ (0.01 : ℚ) := by
  refine ⟨?_, ?_, ?_, ?_, ?_⟩
  · have h1 : feature2height ⟨"way/5001", [("height", "10"), ("building:levels", "5")], "Polygon", []⟩
        = some (height2meters "10") := rfl
    rw [h1, height2meters_meters "10" 10 0 (by decide) (by decide)]
    norm_num
  · have h1 : feature2height ⟨"way/5002", [("building:levels", "3")], "Polygon", []⟩
        = some (jsLevels (parseInt "3")) := rfl
    have h2 : parseInt "3" = some 3 := by decide
    rw [h1, h2]
    simp only [jsLevels, JSNumber.num.injEq, Option.some.injEq]
    norm_num [LEVEL_HEIGHT_M]
  · have h1 : feature2height ⟨"way/5003", [("height", heightFeet33)], "Polygon", []⟩
        = some (height2meters heightFeet33) := rfl
    rw [h1, height2meters_feet heightFeet33 33 0 (by decide) (by decide)]
    norm_num
  · norm_num [FEET_TO_METER]
  · rw [abs_le]
    constructor <;> norm_num [FEET_TO_METER]

/-! ## Incremental tile loader (`loadTilesAround`) -/

/-- Integers from `a` (inclusive) to `b` (exclusive), the index sequence of a
JS `for (let i = a; i < b; i++)` loop. -/
def rangeInts (a b : ℤ) : List ℤ :=
  (List.range (b - a).toNat).map (fun i => a + i)

/-- The tile rectangle scanned by one `loadTilesAround` call, given the
viewer's fractional tile coordinates `tileX`, `tileY` and the radius in tile
units (`radius_m / tileSize_m`) as computed there: `startX`/`endX` from
floor/ceil with the `(v + nTiles) % nTiles` date-line wrap (JS `%` is the
truncating remainder), `startY`/`endY` clamped to `[0, nTiles]`, then the
double loop `for y in [startY, endY) for x in [startX, endX)`. -/
def scannedTiles (zoom : ℕ) (tileX tileY radius : ℚ) : List (ℤ × ℤ) :=
  let nTiles : ℤ := 2 ^ zoom
  let startX0 := ⌊tileX - radius⌋
  let startY := max 0 ⌊tileY - radius⌋
  let endX0 := ⌈tileX + radius⌉
  let endY := min nTiles ⌈tileY + radius⌉
  let startX := Int.tmod (startX0 + nTiles) nTiles
  let endX := Int.tmod (endX0 + nTiles) nTiles
  (rangeInts startY endY).flatMap (fun y => (rangeInts startX endX).map (fun x => (x, y)))

/-- C1: at zoom 4 with the viewpoint at fractional tile x-coordinate 0
(y-coordinate 8, mid-grid) and a radius of 2 tiles, the modulo wrap yields
`startX = 14`, `endX = 2`, and the x-loop `for (x = startX; x < endX; x++)`
never executes: the scan is empty, so tile `x = 15` is not included, even
though the y-range `[6, 10)` is nonempty.  This contradicts the claimed
date-line wraparound (and the code's own comment stating the modulo is there
"to wrap around the date line"). -/
theorem c1_wraparound_scan_empty :
    scannedTiles 4 0 8 2 = [] ∧ rangeInts 6 10 = [6, 7, 8, 9] := by
  have h1 : ⌊(0 : ℚ) - 2⌋ = -2 := by norm_num
  have h2 : ⌊(8 : ℚ) - 2⌋ = 6 := by norm_num
  have h3 : ⌈(0 : ℚ) + 2⌉ = 2 := by norm_num
  have h4 : ⌈(8 : ℚ) + 2⌉ = 10 := by norm_num
  simp only [scannedTiles, h1, h2, h3, h4]
  constructor
  · decide
  · decide

/-- JS `ToInt32`: reduce modulo `2^32` into `[0, 2^32)`, then interpret the
top bit as a sign. -/
def toInt32 (n : ℤ) : ℤ :=
  let m := n % 4294967296
  if m < 2147483648 then m else m - 4294967296

/-- JS `<<` on numbers: the left operand passes through `ToInt32`, the shift
count is taken mod 32, and the result is again a signed 32-bit value. -/
def jsShiftLeft32 (a : ℤ) (b : ℕ) : ℤ :=
  toInt32 (toInt32 a * 2 ^ (b % 32))

/-- The single-integer tile key `(y << zoom) + x` used for the
`tilesLoaded` membership check in `loadTilesAround`. -/
def tileKey (zoom : ℕ) (x y : ℤ) : ℤ :=
  jsShiftLeft32 y zoom + x

/-- C8: the tile-key packing is *not* injective at the default zoom 17:
the distinct in-range tiles `(0, 0)` and `(0, 32768)` collide on key `0`,
because the JS `<<` operator truncates `y * 2^17` to 32 bits
(`32768 * 2^17 = 2^32 ≡ 0`).  The loaded-tile membership check therefore
confuses these tiles. -/
theorem c8_tilekey_collision_at_zoom17 :
    tileKey 17 0 0 = tileKey 17 0 32768
    ∧ ((0 : ℤ), (0 : ℤ)) ≠ ((0 : ℤ), (32768 : ℤ))
    ∧ (0 : ℤ) ≤ 32768 ∧ (32768 : ℤ) < 2 ^ 17 := by
  refine ⟨by decide, by decide, by decide, by decide⟩

/-! ## Tile projection math (`latlon2fractionalTileId`, `tile2bbox`) -/

/-- `latlon2fractionalTileId`: the slippy-map Web-Mercator forward formula,
returning fractional tile coordinates `(x, y)`. -/
noncomputable def latlon2fractionalTileId (zoom : ℕ) (lat lon : ℝ) : ℝ × ℝ :=
  let nTiles : ℝ := 2 ^ zoom
  let latRad := lat * Real.pi / 180
  (nTiles * (lon + 180) / 360,
   nTiles * (1 - Real.log (Real.tan latRad + 1 / Real.cos latRad) / Real.pi) / 2)

/-- `tile2bbox`: inverse Mercator bounding box `(south, west, north, east)`
of tile `(x, y)` in degrees. -/
noncomputable def tile2bbox (x y : ℤ) (zoom : ℕ) : ℝ × ℝ × ℝ × ℝ :=
  let nTiles : ℝ := 2 ^ zoom
  let north := 180 * Real.arctan (Real.sinh (Real.pi * (1 - 2 * (y : ℝ) / nTiles))) / Real.pi
  let south := 180 * Real.arctan (Real.sinh (Real.pi * (1 - 2 * ((y : ℝ) + 1) / nTiles))) / Real.pi
  let west := (x : ℝ) / nTiles * 360 - 180
  let east := ((x : ℝ) + 1) / nTiles * 360 - 180
  (south, west, north, east)

/-- The Gudermannian identity used by the round trip:
`log (tan (arctan s) + 1 / cos (arctan s)) = arsinh s`. -/
theorem log_tan_add_inv_cos_arctan (s : ℝ) :
    Real.log (Real.tan (Real.arctan s) + 1 / Real.cos (Real.arctan s)) = Real.arsinh s := by
  rw [Real.tan_arctan, Real.cos_arctan, one_div_one_div]
  rfl

/-- The forward x-formula inverts `west = u / 2^zoom * 360 - 180` exactly. -/
theorem latlon2fractionalTileId_fst (zoom : ℕ) (lat u : ℝ) :
    (latlon2fractionalTileId zoom lat (u / 2 ^ zoom * 360 - 180)).1 = u := by
  unfold latlon2fractionalTileId
  have h : (2 : ℝ) ^ zoom ≠ 0 := pow_ne_zero _ two_ne_zero
  field_simp
  ring

/-- The forward y-formula inverts the latitude `180·arctan(sinh(π t))/π`
exactly. -/
theorem latlon2fractionalTileId_snd (zoom : ℕ) (t lon : ℝ) :
    (latlon2fractionalTileId zoom (180 * Real.arctan (Real.sinh (Real.pi * t)) / Real.pi) lon).2
      = (2 : ℝ) ^ zoom * (1 - t) / 2 := by
  unfold latlon2fractionalTileId
  have hπ : Real.pi ≠ 0 := Real.pi_ne_zero
  have h1 : 180 * Real.arctan (Real.sinh (Real.pi * t)) / Real.pi * Real.pi / 180
      = Real.arctan (Real.sinh (Real.pi * t)) := by
    field_simp
  simp only [h1, log_tan_add_inv_cos_arctan, Real.arsinh_sinh]
  rw [mul_div_cancel_left₀ t hπ]

/-- C6: tile round-trip.  For every valid tile `(x, y)` at the given zoom,
feeding the `(north, west)` and `(south, east)` corners of
`tile2bbox x y zoom` back through `latlon2fractionalTileId` recovers
`(x, y)` and `(x+1, y+1)` within `1e-9` tile units (in fact exactly, over
the reals). -/
theorem c6_tile_roundtrip (x y : ℤ) (zoom : ℕ)
    (hx0 : 0 ≤ x) (hx1 : x < 2 ^ zoom) (hy0 : 0 ≤ y) (hy1 : y < 2 ^ zoom) :
    |(latlon2fractionalTileId zoom (tile2bbox x y zoom).2.2.1 (tile2bbox x y zoom).2.1).1 - (x : ℝ)| ≤ 1e-9
    ∧ |(latlon2fractionalTileId zoom (tile2bbox x y zoom).2.2.1 (tile2bbox x y zoom).2.1).2 - (y : ℝ)| ≤ 1e-9
    ∧ |(latlon2fractionalTileId zoom (tile2bbox x y zoom).1 (tile2bbox x y zoom).2.2.2).1 - ((x : ℝ) + 1)| ≤ 1e-9
    ∧ |(latlon2fractionalTileId zoom (tile2bbox x y zoom).1 (tile2bbox x y zoom).2.2.2).2 - ((y : ℝ) + 1)| ≤ 1e-9 := by
  have hn : (2 : ℝ) ^ zoom ≠ 0 := pow_ne_zero _ two_ne_zero
  have hwest : (tile2bbox x y zoom).2.1 = (x : ℝ) / 2 ^ zoom * 360 - 180 := rfl
  have heast : (tile2bbox x y zoom).2.2.2 = ((x : ℝ) + 1) / 2 ^ zoom * 360 - 180 := rfl
  have hnorth : (tile2bbox x y zoom).2.2.1
      = 180 * Real.arctan (Real.sinh (Real.pi * (1 - 2 * (y : ℝ) / 2 ^ zoom))) / Real.pi := rfl
  have hsouth : (tile2bbox x y zoom).1
      = 180 * Real.arctan (Real.sinh (Real.pi * (1 - 2 * ((y : ℝ) + 1) / 2 ^ zoom))) / Real.pi := rfl
  refine ⟨?_, ?_, ?_, ?_⟩
  · rw [hwest, latlon2fractionalTileId_fst]
    norm_num
  · rw [hwest, hnorth, latlon2fractionalTileId_snd]
    have : (2 : ℝ) ^ zoom * (1 - (1 - 2 * (y : ℝ) / 2 ^ zoom)) / 2 = (y : ℝ) := by
      field_simp
    rw [this]
    norm_num
  · rw [heast, latlon2fractionalTileId_fst]
    norm_num
  · rw [heast, hsouth, latlon2fractionalTileId_snd]
    have : (2 : ℝ) ^ zoom * (1 - (1 - 2 * ((y : ℝ) + 1) / 2 ^ zoom)) / 2 = (y : ℝ) + 1 := by
      field_simp
    rw [this]
    norm_num

theorem c6_tile_roundtrip_witness :
    ((0 : ℤ) ≤ 3 ∧ (3 : ℤ) < 2 ^ 4 ∧ (0 : ℤ) ≤ 5 ∧ (5 : ℤ) < 2 ^ 4)
    ∧ (|(latlon2fractionalTileId 4 (tile2bbox 3 5 4).2.2.1 (tile2bbox 3 5 4).2.1).1 - (3 : ℝ)| ≤ 1e-9
      ∧ |(latlon2fractionalTileId 4 (tile2bbox 3 5 4).2.2.1 (tile2bbox 3 5 4).2.1).2 - (5 : ℝ)| ≤ 1e-9
      ∧ |(latlon2fractionalTileId 4 (tile2bbox 3 5 4).1 (tile2bbox 3 5 4).2.2.2).1 - ((3 : ℝ) + 1)| ≤ 1e-9
      ∧ |(latlon2fractionalTileId 4 (tile2bbox 3 5 4).1 (tile2bbox 3 5 4).2.2.2).2 - ((5 : ℝ) + 1)| ≤ 1e-9) :=
  ⟨⟨by decide, by decide, by decide, by decide⟩,
   c6_tile_roundtrip 3 5 4 (by decide) (by decide) (by decide) (by decide)⟩

/-! ## Plane coordinates and bounding boxes -/

/-- `geojsonCoords2plane`: equirectangular conversion of a path of
`(lon, lat)` pairs into meter positions relative to `(baseLat, baseLon)`.
(The JS unwrap of a singly-nested `MultiPolygon` path cannot fire on a flat
list of pairs, which is how paths are typed here.) -/
noncomputable def geojsonCoords2plane (coords : List (ℚ × ℚ)) (baseLat baseLon : ℚ) :
    List (ℝ × ℝ) :=
  let circumference_m : ℝ := ((EQUATOR_M : ℚ) : ℝ) * Real.cos ((baseLat : ℝ) * Real.pi / 180)
  coords.map (fun p =>
    (((p.1 : ℝ) - (baseLon : ℝ)) / 360 * circumference_m,
     ((p.2 : ℝ) - (baseLat : ℝ)) / 360 * ((POLES_M : ℚ) : ℝ)))

/-- A `THREE.Box2`: an axis-aligned box in plane coordinates. -/
structure Box2 where
  minX : ℝ
  maxX : ℝ
  minY : ℝ
  maxY : ℝ

/-- `THREE.Box2().setFromPoints`: expand by each point in turn.  Rings in
the modelled pipeline are nonempty; for `[]` THREE would yield the empty box
(`+∞`/`-∞` bounds), which `ℝ` cannot represent. -/
noncomputable def Box2.fromPoints : List (ℝ × ℝ) → Box2
  | [] => ⟨0, 0, 0, 0⟩
  | p :: ps =>
    ps.foldl (fun b q => ⟨min b.minX q.1, max b.maxX q.1, min b.minY q.2, max b.maxY q.2⟩)
      ⟨p.1, p.1, p.2, p.2⟩

/-- `THREE.Box2.containsBox`: the argument box lies inside this box
(non-strict bounds). -/
def Box2.containsBox (a b : Box2) : Prop :=
  a.minX ≤ b.minX ∧ b.maxX ≤ a.maxX ∧ a.minY ≤ b.minY ∧ b.maxY ≤ a.maxY

/-- The `tmp_bbox` attached to a feature in `filterBuildingParts`: bounding
box of the plane outline of the feature's first path. -/
noncomputable def featureBBox (f : Feature) (lat lon : ℚ) : Box2 :=
  Box2.fromPoints (geojsonCoords2plane (f.coordinates.headD []) lat lon)

/-! ## Building/part reconciliation (`filterBuildingParts`) -/

/-- `isArea` check of the first pass: geometry type is neither `LineString`
nor `Point`. -/
def isArea (f : Feature) : Bool :=
  f.geomType != "LineString" && f.geomType != "Point"

/-- The mutable state of `filterBuildingParts`' first pass: the
`id2feature` map (with the cached `tmp_bbox`), the `buildingIds` and
`partIds` sets, and the `featuresLoaded` registry, all in insertion order. -/
structure RecState where
  id2feature : List (String × (Feature × Box2))
  buildingIds : List String
  partIds : List String
  loaded : List String

/-- One iteration of the first pass: register and classify an unseen area
feature carrying `building` or `building:part`, else ignore it. -/
noncomputable def processFeature (lat lon : ℚ) (s : RecState) (f : Feature) : RecState :=
  if !s.loaded.contains f.id && isArea f && (hasTag f "building" || hasTag f "building:part") then
    let bbox := featureBBox f lat lon
    { id2feature := s.id2feature ++ [(f.id, (f, bbox))]
      buildingIds := if hasTag f "building" then s.buildingIds ++ [f.id] else s.buildingIds
      partIds := if hasTag f "building" then s.partIds else s.partIds ++ [f.id]
      loaded := s.loaded ++ [f.id] }
  else s

/-- The first pass over the batch. -/
noncomputable def processFeatures (lat lon : ℚ) : RecState → List Feature → RecState
  | s, [] => s
  | s, f :: fs => processFeatures lat lon (processFeature lat lon s f) fs

section

open Classical

/-- `findBaseBuilding`: fold over the candidate building ids, starting from
the falsy sentinel `0` (modelled as `""`); a candidate whose bbox contains
the part's bbox replaces the current result only when the current result's
bbox contains the candidate's.  (The candidate ids are keys of `id2feature`
by construction; the `none` lookup branch is dead.) -/
noncomputable def findBaseBuilding (part : Feature × Box2) (buildingIds : List String)
    (id2feature : List (String × (Feature × Box2))) : String :=
  buildingIds.foldl (fun result buildingId =>
    match id2feature.lookup buildingId with
    | none => result
    | some building =>
      if Box2.containsBox building.2 part.2 then
        if result ≠ "" then
          match id2feature.lookup result with
          | none => result
          | some cur => if Box2.containsBox cur.2 building.2 then buildingId else result
        else buildingId
      else result) ""

end

/-- The part-grouping state of the second pass: `baseBuildingIds` and the
`baseBuildings2parts` map, in insertion order. -/
structure Grouping where
  baseBuildingIds : List String
  baseBuildings2parts : List (String × List String)

/-- `baseBuildings2parts[buildingId] ||= new Set(); …add(partId)`. -/
def insertPart : List (String × List String) → String → String → List (String × List String)
  | [], b, p => [(b, [p])]
  | (k, ps) :: rest, b, p =>
    if k = b then (k, if ps.contains p then ps else ps ++ [p]) :: rest
    else (k, ps) :: insertPart rest b p

/-- The second pass: attach every non-roof part to its base building, when
one exists. -/
noncomputable def groupParts (st : RecState) : Grouping :=
  st.partIds.foldl (fun g partId =>
    match st.id2feature.lookup partId with
    | none => g
    | some part =>
      if isRoof part.1 then g
      else
        let buildingId := findBaseBuilding part st.buildingIds st.id2feature
        if buildingId ≠ "" then
          { baseBuildingIds :=
              if g.baseBuildingIds.contains buildingId then g.baseBuildingIds
              else g.baseBuildingIds ++ [buildingId]
            baseBuildings2parts := insertPart g.baseBuildings2parts buildingId partId }
        else g) ⟨[], []⟩

/-- The "part sits on top of the building" test of the third pass.  The JS
compares the raw tag strings `part.min_height >= building.height`, which for
two strings is a lexicographic comparison. -/
def partOnTop (part building : Feature) : Bool :=
  match getTag part "min_height", getTag building "height" with
  | some mh, some h => !(decide (mh < h))
  | _, _ => false

/-- The third pass: a base building with two or more attached parts is
marked skipped by any attached part that is not on top of it. -/
noncomputable def computeSkipped (st : RecState) (g : Grouping) : List String :=
  g.baseBuildingIds.foldl (fun skipped buildingId =>
    match g.baseBuildings2parts.lookup buildingId, st.id2feature.lookup buildingId with
    | some parts, some building =>
      if parts.length == 1 then skipped
      else
        parts.foldl (fun sk partId =>
          match st.id2feature.lookup partId with
          | none => sk
          | some part =>
            if partOnTop part.1 building.1 then sk
            else if sk.contains buildingId then sk else sk ++ [buildingId]) skipped
    | _, _ => skipped) []

/-- `filterBuildingParts`: returns the kept feature-id set (insertion order
of `Object.keys(id2feature)` minus `skippedBuildingIds`) together with the
updated `featuresLoaded` registry it mutates. -/
noncomputable def filterBuildingParts (features : List Feature) (featuresLoaded : List String)
    (lat lon : ℚ) : List String × List String :=
  let st := processFeatures lat lon ⟨[], [], [], featuresLoaded⟩ features
  let g := groupParts st
  let skipped := computeSkipped st g
  ((st.id2feature.map Prod.fst).filter (fun fid => !skipped.contains fid), st.loaded)

/-! ## Feature-to-geometry conversion (`createGeometry`, `feature2geometry`) -/

/-- A JS number in the geometry pipeline: `none` is `NaN`. -/
def JSNumber.toReal : JSNumber → Option ℝ
  | .nan => none
  | .num q => some ((q : ℚ) : ℝ)

/-- NaN-propagating subtraction. -/
def rsub : Option ℝ → Option ℝ → Option ℝ
  | some a, some b => some (a - b)
  | _, _ => none

/-- JS `null` coerces to `0` in arithmetic (`null - x = -x`). -/
def jsCoerceNull : Option (Option ℝ) → Option ℝ
  | none => some 0
  | some v => v

/-- The vertical offset effected by `if (minHeight) translate(0, minHeight, 0)`:
`NaN` and `0` are falsy and translate by nothing. -/
def jsTruthyVal : Option ℝ → ℝ
  | none => 0
  | some v => v

/-- `THREE.Shape.getLength` over the outline path: sum of the segment
lengths between consecutive points. -/
noncomputable def pathLength : List (ℝ × ℝ) → ℝ
  | p :: q :: rest => Real.sqrt ((q.1 - p.1) ^ 2 + (q.2 - p.2) ^ 2) + pathLength (q :: rest)
  | _ => 0

/-- The geometry data produced by the converter: an extruded
polygon-with-holes (depth `height − minHeight`, then translated up), or a
dome (half-sphere scaled to `radius, height − minHeight, radius` and
translated to the bbox center at height `minHeight`). -/
inductive Geom where
  | extrude (shape : List (ℝ × ℝ)) (holes : List (List (ℝ × ℝ)))
      (depth : Option ℝ) (translateY : ℝ) : Geom
  | dome (center : ℝ × ℝ) (radius : ℝ) (vscale : Option ℝ) (baseY : Option ℝ) : Geom

/-- `createGeometry`: a `null` height (outer `none`) is replaced by the
perimeter estimate `min(DEFAULT_BUILDING_HEIGHT_M, perimeter/5)`, then
`minHeight` is subtracted and the solid translated up by `minHeight`. -/
noncomputable def createGeometry (xyCoords : List (ℝ × ℝ)) (xyHoles : List (List (ℝ × ℝ)))
    (height : Option (Option ℝ)) (minHeight : Option ℝ) : Geom :=
  let h : Option ℝ :=
    match height with
    | none => some (min ((DEFAULT_BUILDING_HEIGHT_M : ℚ) : ℝ) (pathLength xyCoords / 5))
    | some v => v
  Geom.extrude xyCoords xyHoles (rsub h minHeight) (jsTruthyVal minHeight)

/-- `createDomeGeometry`: radius is half the bbox width; the vertical scale
is `height − minHeight`, where a `null` height coerces to `0` (JS number
coercion), *not* to the perimeter estimate. -/
noncomputable def createDomeGeometry (xyCoords : List (ℝ × ℝ))
    (height : Option (Option ℝ)) (minHeight : Option ℝ) : Geom :=
  let bbox := Box2.fromPoints xyCoords
  let radius_m := (bbox.maxX - bbox.minX) / 2
  let center := ((bbox.minX + bbox.maxX) / 2, (bbox.minY + bbox.maxY) / 2)
  Geom.dome center radius_m (rsub (jsCoerceNull height) minHeight) minHeight

/-- The plane outline of the feature's first path (`xyOutline`). -/
noncomputable def outlineOf (f : Feature) (baseLat baseLon : ℚ) : List (ℝ × ℝ) :=
  geojsonCoords2plane (f.coordinates.headD []) baseLat baseLon

/-- The plane hole paths of the feature (`xyHoles`). -/
noncomputable def holesOf (f : Feature) (baseLat baseLon : ℚ) : List (List (ℝ × ℝ)) :=
  (f.coordinates.drop 1).map (fun p => geojsonCoords2plane p baseLat baseLon)

/-- `feature2geometry`: skip (`null`) exactly when the resolved height is
strictly equal to the number `0`; otherwise build a dome or an extruded
solid. -/
noncomputable def feature2geometry (f : Feature) (baseLat baseLon : ℚ) : Option Geom :=
  let xyOutline := outlineOf f baseLat baseLon
  let xyHoles := holesOf f baseLat baseLon
  let height_m := feature2height f
  if height_m = some (JSNumber.num 0) then none
  else
    let minHeight_m := (feature2minHeight f).toReal
    if hasShape f "dome" then
      some (createDomeGeometry xyOutline (height_m.map JSNumber.toReal) minHeight_m)
    else
      some (createGeometry xyOutline xyHoles (height_m.map JSNumber.toReal) minHeight_m)

/-! ## Claim C9: base-building selection -/

/-- Candidate building A of the C9 scenarios. -/
def c9fA : Feature := ⟨"way/A", [("building", "yes")], "Polygon", []⟩

/-- Candidate building B of the C9 scenarios. -/
def c9fB : Feature := ⟨"way/B", [("building", "yes")], "Polygon", []⟩

/-- The building part of the C9 scenarios. -/
def c9fP : Feature := ⟨"way/P", [("building:part", "yes")], "Polygon", []⟩

/-- Bbox of A: contains the part, incomparable with B's bbox. -/
def c9boxA : Box2 := ⟨0, 4, 0, 10⟩

/-- Bbox of B: contains the part, incomparable with A's bbox. -/
def c9boxB : Box2 := ⟨0, 10, 0, 4⟩

/-- Bbox of the part, contained in both A's and B's. -/
def c9boxP : Box2 := ⟨2, 3, 2, 3⟩

/-- The `id2feature` map of the C9 counterexample. -/
def c9map : List (String × (Feature × Box2)) :=
  [("way/A", (c9fA, c9boxA)), ("way/B", (c9fB, c9boxB))]

/-- C9 counterexample: when the part's bbox is contained in two buildings
whose bboxes are incomparable (neither contains the other),
`findBaseBuilding` returns whichever candidate is iterated first: the result
depends on the iteration order, and neither candidate has "the smallest
containing bbox". -/
theorem c9_order_dependent_counterexample :
    findBaseBuilding (c9fP, c9boxP) ["way/A", "way/B"] c9map = "way/A"
    ∧ findBaseBuilding (c9fP, c9boxP) ["way/B", "way/A"] c9map = "way/B"
    ∧ ("way/A" : String) ≠ "way/B" := by
  have la : List.lookup "way/A" c9map = some (c9fA, c9boxA) := rfl
  have lb : List.lookup "way/B" c9map = some (c9fB, c9boxB) := rfl
  have hPA : Box2.containsBox c9boxA c9boxP := by
    refine ⟨?_, ?_, ?_, ?_⟩ <;> norm_num [c9boxA, c9boxP]
  have hPB : Box2.containsBox c9boxB c9boxP := by
    refine ⟨?_, ?_, ?_, ?_⟩ <;> norm_num [c9boxB, c9boxP]
  have hAB : ¬ Box2.containsBox c9boxA c9boxB := by
    intro h
    have := h.2.1
    norm_num [c9boxA, c9boxB] at this
  have hBA : ¬ Box2.containsBox c9boxB c9boxA := by
    intro h
    have := h.2.2.2
    norm_num [c9boxA, c9boxB] at this
  refine ⟨?_, ?_, by decide⟩
  · unfold findBaseBuilding
    simp only [List.foldl_cons, List.foldl_nil, la, lb]
    simp [la, lb, hPA, hPB, hAB]
  · unfold findBaseBuilding
    simp only [List.foldl_cons, List.foldl_nil, la, lb]
    simp [la, lb, hPA, hPB, hBA]

/-- C9 (amended): the result is deterministic only when the containing
candidates' bboxes are ordered by containment: for two candidates that both
contain the part, with A's bbox containing B's and not conversely,
`findBaseBuilding` returns B — the smallest containing bbox — under either
iteration order.  (With incomparable containing bboxes the result is
order-dependent, per the counterexample.) -/
theorem c9_smallest_bbox_when_chain (a b : String) (fa fb : Feature) (boxa boxb : Box2)
    (p : Feature × Box2)
    (ha : a ≠ "") (hb : b ≠ "") (hab : a ≠ b)
    (hpa : Box2.containsBox boxa p.2) (hpb : Box2.containsBox boxb p.2)
    (hchain : Box2.containsBox boxa boxb) (hstrict : ¬ Box2.containsBox boxb boxa) :
    findBaseBuilding p [a, b] [(a, (fa, boxa)), (b, (fb, boxb))] = b
    ∧ findBaseBuilding p [b, a] [(a, (fa, boxa)), (b, (fb, boxb))] = b := by
  have la : List.lookup a [(a, (fa, boxa)), (b, (fb, boxb))] = some (fa, boxa) := by
    simp [List.lookup]
  have lb : List.lookup b [(a, (fa, boxa)), (b, (fb, boxb))] = some (fb, boxb) := by
    have : (b == a) = false := by simp [beq_eq_false_iff_ne, Ne.symm hab]
    simp [List.lookup, this]
  constructor
  · unfold findBaseBuilding
    simp only [List.foldl_cons, List.foldl_nil, la, lb]
    simp [la, lb, hpa, hpb, hchain, ha]
  · unfold findBaseBuilding
    simp only [List.foldl_cons, List.foldl_nil, la, lb]
    simp [la, lb, hpa, hpb, hstrict, hb]

/-- Chain-scenario bbox of A (outer). -/
def c9chainBoxA : Box2 := ⟨0, 10, 0, 10⟩

/-- Chain-scenario bbox of B (inner). -/
def c9chainBoxB : Box2 := ⟨1, 4, 1, 4⟩

theorem c9_smallest_bbox_when_chain_witness :
    findBaseBuilding (c9fP, c9boxP) ["way/A", "way/B"]
        [("way/A", (c9fA, c9chainBoxA)), ("way/B", (c9fB, c9chainBoxB))] = "way/B"
    ∧ findBaseBuilding (c9fP, c9boxP) ["way/B", "way/A"]
        [("way/A", (c9fA, c9chainBoxA)), ("way/B", (c9fB, c9chainBoxB))] = "way/B" :=
  c9_smallest_bbox_when_chain "way/A" "way/B" c9fA c9fB c9chainBoxA c9chainBoxB
    (c9fP, c9boxP) (by decide) (by decide) (by decide)
    (by refine ⟨?_, ?_, ?_, ?_⟩ <;> norm_num [c9chainBoxA, c9boxP])
    (by refine ⟨?_, ?_, ?_, ?_⟩ <;> norm_num [c9chainBoxB, c9boxP])
    (by refine ⟨?_, ?_, ?_, ?_⟩ <;> norm_num [c9chainBoxA, c9chainBoxB])
    (by intro h
        have := h.1
        norm_num [c9chainBoxA, c9chainBoxB] at this)

/-! ## Claim C10: the featuresLoaded registry -/

/-- The registry only grows in one first-pass step. -/
theorem processFeature_loaded_mono (lat lon : ℚ) (s : RecState) (f : Feature) (fid : String)
    (h : fid ∈ s.loaded) : fid ∈ (processFeature lat lon s f).loaded := by
  unfold processFeature
  split
  · simpa using Or.inl h
  · exact h

/-- The registry only grows over the first pass. -/
theorem processFeatures_loaded_mono (lat lon : ℚ) (fs : List Feature) (s : RecState)
    (fid : String) (h : fid ∈ s.loaded) : fid ∈ (processFeatures lat lon s fs).loaded := by
  induction fs generalizing s with
  | nil => exact h
  | cons g gs ih => exact ih _ (processFeature_loaded_mono lat lon s g fid h)

/-- Every area feature of the batch carrying `building` or `building:part`
is registered by the first pass, whether or not it is kept later. -/
theorem processFeatures_marks (lat lon : ℚ) (fs : List Feature) (s : RecState) (f : Feature)
    (hf : f ∈ fs) (ha : isArea f = true)
    (ht : hasTag f "building" = true ∨ hasTag f "building:part" = true) :
    f.id ∈ (processFeatures lat lon s fs).loaded := by
  induction fs generalizing s with
  | nil => cases hf
  | cons g gs ih =>
    have hstep : processFeatures lat lon s (g :: gs)
        = processFeatures lat lon (processFeature lat lon s g) gs := rfl
    rw [hstep]
    rcases List.mem_cons.mp hf with rfl | hmem
    · apply processFeatures_loaded_mono
      unfold processFeature
      by_cases hc : (!s.loaded.contains f.id && isArea f
          && (hasTag f "building" || hasTag f "building:part")) = true
      · rw [if_pos hc]
        simp
      · rw [if_neg hc]
        by_contra hnc
        apply hc
        rcases ht with h | h <;> simp [ha, h, hnc]
    · exact ih _ hmem

/-- An id already present in the registry on entry is never added to
`id2feature` by the first pass (and stays registered). -/
theorem processFeatures_registered_not_keyed (lat lon : ℚ) (fs : List Feature) (s : RecState)
    (fid : String) (hl : fid ∈ s.loaded) (hk : fid ∉ s.id2feature.map Prod.fst) :
    fid ∈ (processFeatures lat lon s fs).loaded
    ∧ fid ∉ (processFeatures lat lon s fs).id2feature.map Prod.fst := by
  induction fs generalizing s with
  | nil => exact ⟨hl, hk⟩
  | cons g gs ih =>
    have hstep : processFeatures lat lon s (g :: gs)
        = processFeatures lat lon (processFeature lat lon s g) gs := rfl
    rw [hstep]
    apply ih
    · exact processFeature_loaded_mono lat lon s g fid hl
    · unfold processFeature
      by_cases hc : (!s.loaded.contains g.id && isArea g
          && (hasTag g "building" || hasTag g "building:part")) = true
      · rw [if_pos hc]
        have hgid : g.id ∉ s.loaded := by
          intro hmem
          simp [hmem] at hc
        intro hmem
        rcases List.mem_map.mp hmem with ⟨kv, hkv, hfst⟩
        rcases List.mem_append.mp hkv with hin | hnew
        · exact hk (List.mem_map.mpr ⟨kv, hin, hfst⟩)
        · have hkv2 : kv = (g.id, (g, featureBBox g lat lon)) := by simpa using hnew
          subst hkv2
          apply hgid
          simp only at hfst
          rw [hfst]
          exact hl
      · rw [if_neg hc]
        exact hk

/-- C10: during its first pass `filterBuildingParts` marks every area
feature carrying `building` or `building:part` in the `featuresLoaded`
registry — whether or not the feature survives to the kept set — and any id
already in the registry on entry (e.g. a building suppressed by an earlier
batch) is excluded from the batch's kept set, regardless of which parts are
present. -/
theorem c10_registry_invariant (features : List Feature) (loaded0 : List String) (lat lon : ℚ) :
    (∀ f ∈ features, isArea f = true →
      (hasTag f "building" = true ∨ hasTag f "building:part" = true) →
      f.id ∈ (filterBuildingParts features loaded0 lat lon).2)
    ∧ (∀ fid ∈ loaded0, fid ∉ (filterBuildingParts features loaded0 lat lon).1) := by
  constructor
  · intro f hf ha ht
    exact processFeatures_marks lat lon features ⟨[], [], [], loaded0⟩ f hf ha ht
  · intro fid hfid hmem
    have h2 := (processFeatures_registered_not_keyed lat lon features ⟨[], [], [], loaded0⟩
      fid hfid (by simp)).2
    exact h2 (List.mem_of_mem_filter hmem)

/-- Concrete building used by the C10 witness. -/
def c10feature : Feature := ⟨"way/10001", [("building", "yes")], "Polygon", [[(0, 0), (1, 1)]]⟩

theorem c10_registry_invariant_witness :
    "way/10001" ∈ (filterBuildingParts [c10feature] [] 0 0).2
    ∧ "way/10002" ∉ (filterBuildingParts [c10feature] ["way/10002"] 0 0).1 :=
  ⟨(c10_registry_invariant [c10feature] [] 0 0).1 c10feature (by simp) (by decide)
      (Or.inl (by decide)),
   (c10_registry_invariant [c10feature] ["way/10002"] 0 0).2 "way/10002" (by simp)⟩

/-! ## Claim C2: part suppression -/

/-- C2: in one batch, a building whose bbox contains the bboxes of two
non-roof parts, neither of which passes the `min_height ≥ building.height`
on-top test, is excluded from the kept set while both parts remain in it;
and a building with exactly one associated part is kept alongside that
part. -/
theorem c2_part_suppression :
    (∀ (b p1 p2 : Feature) (lat lon : ℚ),
      b.id ≠ "" → b.id ≠ p1.id → b.id ≠ p2.id → p1.id ≠ p2.id →
      isArea b = true → hasTag b "building" = true →
      isArea p1 = true → hasTag p1 "building" = false → hasTag p1 "building:part" = true →
      isRoof p1 = false →
      isArea p2 = true → hasTag p2 "building" = false → hasTag p2 "building:part" = true →
      isRoof p2 = false →
      Box2.containsBox (featureBBox b lat lon) (featureBBox p1 lat lon) →
      Box2.containsBox (featureBBox b lat lon) (featureBBox p2 lat lon) →
      partOnTop p1 b = false → partOnTop p2 b = false →
      b.id ∉ (filterBuildingParts [b, p1, p2] [] lat lon).1
      ∧ p1.id ∈ (filterBuildingParts [b, p1, p2] [] lat lon).1
      ∧ p2.id ∈ (filterBuildingParts [b, p1, p2] [] lat lon).1)
    ∧ (∀ (b p : Feature) (lat lon : ℚ),
      b.id ≠ "" → b.id ≠ p.id →
      isArea b = true → hasTag b "building" = true →
      isArea p = true → hasTag p "building" = false → hasTag p "building:part" = true →
      isRoof p = false →
      Box2.containsBox (featureBBox b lat lon) (featureBBox p lat lon) →
      b.id ∈ (filterBuildingParts [b, p] [] lat lon).1
      ∧ p.id ∈ (filterBuildingParts [b, p] [] lat lon).1) := by
  constructor
  · intro b p1 p2 lat lon hb0 hne1 hne2 hne3 hba hbt hpa1 hpb1 hpt1 hr1 hpa2 hpb2 hpt2 hr2
      hc1 hc2 ht1 ht2
    have e1 : (p1.id == b.id) = false := by simp [Ne.symm hne1]
    have e2 : (p2.id == b.id) = false := by simp [Ne.symm hne2]
    have e3 : (p2.id == p1.id) = false := by simp [Ne.symm hne3]
    have h1 : processFeature lat lon ⟨[], [], [], []⟩ b
        = ⟨[(b.id, (b, featureBBox b lat lon))], [b.id], [], [b.id]⟩ := by
      unfold processFeature
      rw [if_pos (by simp [hba, hbt])]
      simp [hbt]
    have h2 : processFeature lat lon ⟨[(b.id, (b, featureBBox b lat lon))], [b.id], [], [b.id]⟩ p1
        = ⟨[(b.id, (b, featureBBox b lat lon)), (p1.id, (p1, featureBBox p1 lat lon))],
           [b.id], [p1.id], [b.id, p1.id]⟩ := by
      unfold processFeature
      rw [if_pos (by simp [hpa1, hpt1, Ne.symm hne1])]
      simp [hpb1]
    have h3 : processFeature lat lon
        ⟨[(b.id, (b, featureBBox b lat lon)), (p1.id, (p1, featureBBox p1 lat lon))],
         [b.id], [p1.id], [b.id, p1.id]⟩ p2
        = ⟨[(b.id, (b, featureBBox b lat lon)), (p1.id, (p1, featureBBox p1 lat lon)),
            (p2.id, (p2, featureBBox p2 lat lon))],
           [b.id], [p1.id, p2.id], [b.id, p1.id, p2.id]⟩ := by
      unfold processFeature
      rw [if_pos (by simp [hpa2, hpt2, Ne.symm hne2, Ne.symm hne3])]
      simp [hpb2]
    have hst : processFeatures lat lon ⟨[], [], [], []⟩ [b, p1, p2]
        = ⟨[(b.id, (b, featureBBox b lat lon)), (p1.id, (p1, featureBBox p1 lat lon)),
            (p2.id, (p2, featureBBox p2 lat lon))],
           [b.id], [p1.id, p2.id], [b.id, p1.id, p2.id]⟩ := by
      show processFeatures lat lon (processFeature lat lon ⟨[], [], [], []⟩ b) [p1, p2] = _
      rw [h1]
      show processFeatures lat lon (processFeature lat lon _ p1) [p2] = _
      rw [h2]
      show processFeatures lat lon (processFeature lat lon _ p2) [] = _
      rw [h3]
      rfl
    have lkb : List.lookup b.id
        [(b.id, (b, featureBBox b lat lon)), (p1.id, (p1, featureBBox p1 lat lon)),
         (p2.id, (p2, featureBBox p2 lat lon))] = some (b, featureBBox b lat lon) := by
      simp [List.lookup]
    have lkp1 : List.lookup p1.id
        [(b.id, (b, featureBBox b lat lon)), (p1.id, (p1, featureBBox p1 lat lon)),
         (p2.id, (p2, featureBBox p2 lat lon))] = some (p1, featureBBox p1 lat lon) := by
      simp [List.lookup, e1]
    have lkp2 : List.lookup p2.id
        [(b.id, (b, featureBBox b lat lon)), (p1.id, (p1, featureBBox p1 lat lon)),
         (p2.id, (p2, featureBBox p2 lat lon))] = some (p2, featureBBox p2 lat lon) := by
      simp [List.lookup, e2, e3]
    have hfb1 : findBaseBuilding (p1, featureBBox p1 lat lon) [b.id]
        [(b.id, (b, featureBBox b lat lon)), (p1.id, (p1, featureBBox p1 lat lon)),
         (p2.id, (p2, featureBBox p2 lat lon))] = b.id := by
      unfold findBaseBuilding
      simp only [List.foldl_cons, List.foldl_nil, lkb]
      simp [hc1]
    have hfb2 : findBaseBuilding (p2, featureBBox p2 lat lon) [b.id]
        [(b.id, (b, featureBBox b lat lon)), (p1.id, (p1, featureBBox p1 lat lon)),
         (p2.id, (p2, featureBBox p2 lat lon))] = b.id := by
      unfold findBaseBuilding
      simp only [List.foldl_cons, List.foldl_nil, lkb]
      simp [hc2]
    have hg : groupParts
        ⟨[(b.id, (b, featureBBox b lat lon)), (p1.id, (p1, featureBBox p1 lat lon)),
          (p2.id, (p2, featureBBox p2 lat lon))],
         [b.id], [p1.id, p2.id], [b.id, p1.id, p2.id]⟩
        = ⟨[b.id], [(b.id, [p1.id, p2.id])]⟩ := by
      unfold groupParts
      simp only [List.foldl_cons, List.foldl_nil, lkp1, lkp2]
      simp [hr1, hr2, hfb1, hfb2, hb0, insertPart, Ne.symm hne3]
    have hsk : computeSkipped
        ⟨[(b.id, (b, featureBBox b lat lon)), (p1.id, (p1, featureBBox p1 lat lon)),
          (p2.id, (p2, featureBBox p2 lat lon))],
         [b.id], [p1.id, p2.id], [b.id, p1.id, p2.id]⟩
        ⟨[b.id], [(b.id, [p1.id, p2.id])]⟩ = [b.id] := by
      unfold computeSkipped
      simp only [List.foldl_cons, List.foldl_nil, lkb, lkp1, lkp2]
      simp [lkp1, lkp2, ht1, ht2]
    have hkept : (filterBuildingParts [b, p1, p2] [] lat lon).1 = [p1.id, p2.id] := by
      simp only [filterBuildingParts, hst, hg, hsk]
      simp [hne1, hne2]
      exact ⟨Ne.symm hne1, Ne.symm hne2⟩
    rw [hkept]
    exact ⟨by simp [hne1, hne2], by simp, by simp⟩
  · intro b p lat lon hb0 hne hba hbt hpa hpb hpt hr hc
    have e1 : (p.id == b.id) = false := by simp [Ne.symm hne]
    have h1 : processFeature lat lon ⟨[], [], [], []⟩ b
        = ⟨[(b.id, (b, featureBBox b lat lon))], [b.id], [], [b.id]⟩ := by
      unfold processFeature
      rw [if_pos (by simp [hba, hbt])]
      simp [hbt]
    have h2 : processFeature lat lon ⟨[(b.id, (b, featureBBox b lat lon))], [b.id], [], [b.id]⟩ p
        = ⟨[(b.id, (b, featureBBox b lat lon)), (p.id, (p, featureBBox p lat lon))],
           [b.id], [p.id], [b.id, p.id]⟩ := by
      unfold processFeature
      rw [if_pos (by simp [hpa, hpt, Ne.symm hne])]
      simp [hpb]
    have hst : processFeatures lat lon ⟨[], [], [], []⟩ [b, p]
        = ⟨[(b.id, (b, featureBBox b lat lon)), (p.id, (p, featureBBox p lat lon))],
           [b.id], [p.id], [b.id, p.id]⟩ := by
      show processFeatures lat lon (processFeature lat lon ⟨[], [], [], []⟩ b) [p] = _
      rw [h1]
      show processFeatures lat lon (processFeature lat lon _ p) [] = _
      rw [h2]
      rfl
    have lkb : List.lookup b.id
        [(b.id, (b, featureBBox b lat lon)), (p.id, (p, featureBBox p lat lon))]
        = some (b, featureBBox b lat lon) := by
      simp [List.lookup]
    have lkp : List.lookup p.id
        [(b.id, (b, featureBBox b lat lon)), (p.id, (p, featureBBox p lat lon))]
        = some (p, featureBBox p lat lon) := by
      simp [List.lookup, e1]
    have hfb : findBaseBuilding (p, featureBBox p lat lon) [b.id]
        [(b.id, (b, featureBBox b lat lon)), (p.id, (p, featureBBox p lat lon))] = b.id := by
      unfold findBaseBuilding
      simp only [List.foldl_cons, List.foldl_nil, lkb]
      simp [hc]
    have hg : groupParts
        ⟨[(b.id, (b, featureBBox b lat lon)), (p.id, (p, featureBBox p lat lon))],
         [b.id], [p.id], [b.id, p.id]⟩
        = ⟨[b.id], [(b.id, [p.id])]⟩ := by
      unfold groupParts
      simp only [List.foldl_cons, List.foldl_nil, lkp]
      simp [hr, hfb, hb0, insertPart]
    have hsk : computeSkipped
        ⟨[(b.id, (b, featureBBox b lat lon)), (p.id, (p, featureBBox p lat lon))],
         [b.id], [p.id], [b.id, p.id]⟩
        ⟨[b.id], [(b.id, [p.id])]⟩ = [] := by
      unfold computeSkipped
      simp only [List.foldl_cons, List.foldl_nil, lkb]
      simp
    have hkept : (filterBuildingParts [b, p] [] lat lon).1 = [b.id, p.id] := by
      simp only [filterBuildingParts, hst, hg, hsk]
      simp
    rw [hkept]
    exact ⟨by simp, by simp⟩

/-- Containment of the computed bboxes of two axis-increasing two-point
rings around the origin `(0, 0)`: inherited from containment of the rational
coordinate intervals, since the plane conversion scales each axis by a
positive constant. -/
theorem containsBox_pair_pair (a1 b1 a2 b2 c1 d1 c2 d2 : ℚ)
    (h1 : a1 ≤ c1) (h2 : c2 ≤ a2) (h3 : b1 ≤ d1) (h4 : d2 ≤ b2)
    (ha : a1 ≤ a2) (hb : b1 ≤ b2) (hc : c1 ≤ c2) (hd : d1 ≤ d2) :
    Box2.containsBox (Box2.fromPoints (geojsonCoords2plane [(a1, b1), (a2, b2)] 0 0))
      (Box2.fromPoints (geojsonCoords2plane [(c1, d1), (c2, d2)] 0 0)) := by
  have hcos : Real.cos ((0 : ℝ) * Real.pi / 180) = 1 := by
    norm_num [Real.cos_zero]
  have sc : ∀ u v : ℚ, u ≤ v →
      ((u : ℚ) : ℝ) / 360 * (((EQUATOR_M : ℚ) : ℝ) * Real.cos ((0 : ℝ) * Real.pi / 180))
        ≤ ((v : ℚ) : ℝ) / 360 * (((EQUATOR_M : ℚ) : ℝ) * Real.cos ((0 : ℝ) * Real.pi / 180)) := by
    intro u v huv
    rw [hcos]
    have huv' : ((u : ℚ) : ℝ) ≤ ((v : ℚ) : ℝ) := by exact_mod_cast huv
    have hpos : (0 : ℝ) < ((EQUATOR_M : ℚ) : ℝ) * 1 := by norm_num [EQUATOR_M]
    nlinarith
  have scP : ∀ u v : ℚ, u ≤ v →
      ((u : ℚ) : ℝ) / 360 * ((POLES_M : ℚ) : ℝ) ≤ ((v : ℚ) : ℝ) / 360 * ((POLES_M : ℚ) : ℝ) := by
    intro u v huv
    have huv' : ((u : ℚ) : ℝ) ≤ ((v : ℚ) : ℝ) := by exact_mod_cast huv
    have hpos : (0 : ℝ) < ((POLES_M : ℚ) : ℝ) := by norm_num [POLES_M]
    nlinarith
  unfold geojsonCoords2plane Box2.fromPoints Box2.containsBox
  simp only [List.map_cons, List.map_nil, List.foldl_cons, List.foldl_nil, Rat.cast_zero,
    sub_zero]
  refine ⟨?_, ?_, ?_, ?_⟩ <;> dsimp only
  · rw [min_eq_left (sc _ _ ha), min_eq_left (sc _ _ hc)]
    exact sc _ _ h1
  · rw [max_eq_right (sc _ _ hc), max_eq_right (sc _ _ ha)]
    exact sc _ _ h2
  · rw [min_eq_left (scP _ _ hb), min_eq_left (scP _ _ hd)]
    exact scP _ _ h3
  · rw [max_eq_right (scP _ _ hd), max_eq_right (scP _ _ hb)]
    exact scP _ _ h4

/-- Base building of the C2 witness batches: bbox spans lon/lat 0..10. -/
def c2b : Feature := ⟨"way/2001", [("building", "yes")], "Polygon", [[(0, 0), (10, 10)]]⟩

/-- First non-roof part, inside the building footprint. -/
def c2p1 : Feature := ⟨"way/2002", [("building:part", "yes")], "Polygon", [[(1, 1), (4, 4)]]⟩

/-- Second non-roof part, inside the building footprint. -/
def c2p2 : Feature := ⟨"way/2003", [("building:part", "yes")], "Polygon", [[(5, 5), (8, 8)]]⟩

theorem c2_part_suppression_witness :
    ("way/2001" ∉ (filterBuildingParts [c2b, c2p1, c2p2] [] 0 0).1
      ∧ "way/2002" ∈ (filterBuildingParts [c2b, c2p1, c2p2] [] 0 0).1
      ∧ "way/2003" ∈ (filterBuildingParts [c2b, c2p1, c2p2] [] 0 0).1)
    ∧ ("way/2001" ∈ (filterBuildingParts [c2b, c2p1] [] 0 0).1
      ∧ "way/2002" ∈ (filterBuildingParts [c2b, c2p1] [] 0 0).1) :=
  ⟨c2_part_suppression.1 c2b c2p1 c2p2 0 0 (by decide) (by decide) (by decide) (by decide)
      (by decide) (by decide) (by decide) (by decide) (by decide) (by decide)
      (by decide) (by decide) (by decide) (by decide)
      (containsBox_pair_pair 0 0 10 10 1 1 4 4 (by norm_num) (by norm_num) (by norm_num)
        (by norm_num) (by norm_num) (by norm_num) (by norm_num) (by norm_num))
      (containsBox_pair_pair 0 0 10 10 5 5 8 8 (by norm_num) (by norm_num) (by norm_num)
        (by norm_num) (by norm_num) (by norm_num) (by norm_num) (by norm_num))
      (by decide) (by decide),
   c2_part_suppression.2 c2b c2p1 0 0 (by decide) (by decide) (by decide) (by decide)
      (by decide) (by decide) (by decide) (by decide)
      (containsBox_pair_pair 0 0 10 10 1 1 4 4 (by norm_num) (by norm_num) (by norm_num)
        (by norm_num) (by norm_num) (by norm_num) (by norm_num) (by norm_num))⟩

/-! ## Claim C7: zero-height suppression and the unknown-height estimate -/

/-- The vertical scale of a produced dome geometry, when there is one. -/
def domeVScaleOf : Option Geom → Option ℝ
  | some (.dome _ _ v _) => v
  | _ => none

/-- Dome-shaped building part with no height information at all. -/
def c7dome : Feature :=
  ⟨"way/7001", [("building:part", "yes"), ("building:shape", "dome")], "Polygon",
   [[(0, 0), (1, 0)]]⟩

/-- Feature whose explicit height resolves to exactly 0. -/
def c7zero : Feature :=
  ⟨"way/7002", [("building", "yes"), ("height", "0")], "Polygon", [[(0, 0), (1, 1)]]⟩

/-- Feature with no height information and not dome-shaped. -/
def c7unknown : Feature :=
  ⟨"way/7003", [("building", "residential")], "Polygon", [[(0, 0), (1, 1)]]⟩

/-- C7 counterexample: a dome-shaped feature with unknown (`null`) height
does *not* get the `min(6, perimeter/5)` estimate: the `null` height reaches
`createDomeGeometry`, where JS arithmetic coerces it to `0`, so the dome's
vertical scale is `0`, while the claimed estimate for this footprint is
`6`. -/
theorem c7_dome_unknown_height_counterexample :
    feature2height c7dome = none
    ∧ domeVScaleOf (feature2geometry c7dome 0 0) = some 0
    ∧ min ((DEFAULT_BUILDING_HEIGHT_M : ℚ) : ℝ) (pathLength (outlineOf c7dome 0 0) / 5) = 6
    ∧ (0 : ℝ) ≠ 6 := by
  have hh : feature2height c7dome = none := rfl
  have hshape : hasShape c7dome "dome" = true := by decide
  have hmin : feature2minHeight c7dome = JSNumber.num 0 := rfl
  have hcos : Real.cos ((0 : ℝ) * Real.pi / 180) = 1 := by
    norm_num [Real.cos_zero]
  have hout : outlineOf c7dome 0 0 = [((0 : ℝ), 0), ((40075017 : ℝ) / 360, 0)] := by
    unfold outlineOf geojsonCoords2plane
    simp [c7dome, hcos, EQUATOR_M, POLES_M]
    norm_num
  have hlen : pathLength [((0 : ℝ), 0), ((40075017 : ℝ) / 360, 0)] = 40075017 / 360 := by
    simp only [pathLength]
    rw [show ((40075017 : ℝ) / 360 - 0) ^ 2 + ((0 : ℝ) - 0) ^ 2 = ((40075017 : ℝ) / 360) ^ 2
      by ring]
    rw [Real.sqrt_sq (by positivity)]
    ring
  refine ⟨hh, ?_, ?_, by norm_num⟩
  · simp only [feature2geometry, hh, hshape, hmin]
    simp [createDomeGeometry, domeVScaleOf, jsCoerceNull, rsub, JSNumber.toReal]
  · rw [hout, hlen]
    rw [min_eq_left (by norm_num [DEFAULT_BUILDING_HEIGHT_M])]
    norm_num [DEFAULT_BUILDING_HEIGHT_M]

/-- C7 (amended): a feature whose resolved height is exactly the number `0`
produces no geometry (skip), dome or not; a *non-dome* feature with unknown
(`null`) height gets the estimate `min(6 m, perimeter/5)` as its extrusion
height.  (Dome-shaped features with unknown height instead get vertical
scale `0 − min_height`, per the counterexample.) -/
theorem c7_zero_height_and_unknown_estimate :
    (∀ (f : Feature) (lat lon : ℚ), feature2height f = some (JSNumber.num 0) →
      feature2geometry f lat lon = none)
    ∧ (∀ (f : Feature) (lat lon : ℚ), feature2height f = none → hasShape f "dome" = false →
      feature2geometry f lat lon = some (Geom.extrude (outlineOf f lat lon) (holesOf f lat lon)
        (rsub (some (min ((DEFAULT_BUILDING_HEIGHT_M : ℚ) : ℝ)
          (pathLength (outlineOf f lat lon) / 5))) ((feature2minHeight f).toReal))
        (jsTruthyVal ((feature2minHeight f).toReal)))) := by
  constructor
  · intro f lat lon h
    simp [feature2geometry, h]
  · intro f lat lon h hd
    simp [feature2geometry, h, hd, createGeometry]

theorem c7_zero_height_and_unknown_estimate_witness :
    feature2geometry c7zero 0 0 = none
    ∧ feature2geometry c7unknown 0 0
        = some (Geom.extrude (outlineOf c7unknown 0 0) (holesOf c7unknown 0 0)
            (rsub (some (min ((DEFAULT_BUILDING_HEIGHT_M : ℚ) : ℝ)
              (pathLength (outlineOf c7unknown 0 0) / 5))) ((feature2minHeight c7unknown).toReal))
            (jsTruthyVal ((feature2minHeight c7unknown).toReal))) :=
  ⟨c7_zero_height_and_unknown_estimate.1 c7zero 0 0 (by
      have h1 : feature2height c7zero = some (height2meters "0") := rfl
      rw [h1, height2meters_meters "0" 0 0 (by decide) (by decide)]
      norm_num),
   c7_zero_height_and_unknown_estimate.2 c7unknown 0 0 (by decide) (by decide)⟩

end Osm4vr
